import Mathlib

/-!
Verification of the SEO/content-quality scoring engine and the content
workflow of the pydantic-copywriting-agent repository.

The Python sources `seo_analysis.py`, `graph_agent.py` and `models.py` are
shallowly embedded below.  Floating-point arithmetic is modelled by exact
rationals; Python machine floats introduce no overflow in the ranges used
here and every formula of the source is a composition of field operations,
`min`, `max` and comparisons, so the rational model is the intended real
semantics of the code.  The NLTK tokenizers (`word_tokenize`,
`sent_tokenize`) and the NLTK stop-word corpus are external collaborators:
they are passed to the embedded analyzer as explicit parameters
(`wordTok`, `sentTok`, `stop_words`).  Every regular expression the source
applies is embedded as an executable character-list scanner; the comment
above each scanner quotes the regex it models.
-/

/-! ## Python string primitives -/

/-- Python truthiness of a string: `""` is falsy, everything else truthy. -/
def pyTruthyStr (s : String) : Bool := decide (s ≠ "")

/-- Python truthiness of an optional string: `None` and `""` are falsy. -/
def pyTruthy (o : Option String) : Bool :=
  match o with
  | none => false
  | some s => pyTruthyStr s

/-- Python `a or b` on optional strings: the first operand if truthy, else the second. -/
def pyOr (a b : Option String) : Option String := if pyTruthy a then a else b

/-- Python `str.lower()` (ASCII model): lower-case every character. -/
def pyLower (s : String) : String := String.mk (s.toList.map Char.toLower)

/-- Characters matched by the regex class `\s` (ASCII model: space, tab,
newline, carriage return, vertical tab, form feed). -/
def pySpace (c : Char) : Bool :=
  c = ' ' || c = '\t' || c = '\n' || c = '\r' || c = Char.ofNat 11 || c = Char.ofNat 12

/-- Python `str.strip()`: drop leading and trailing whitespace. -/
def pyStrip (s : String) : String :=
  String.mk (((s.toList.dropWhile pySpace).reverse.dropWhile pySpace).reverse)

/-- A character of the regex class `\w` (ASCII model: letters, digits, underscore). -/
def isWordChar (c : Char) : Bool := c.isAlpha || c.isDigit || c = '_'

/-- Python `str.isalnum()` (ASCII model): non-empty and all characters alphanumeric. -/
def pyIsAlnum (s : String) : Bool :=
  !s.isEmpty && s.toList.all (fun c => c.isAlpha || c.isDigit)

/-- Does `need` occur as a prefix of `hay`? -/
def startsWithSeq : List Char → List Char → Bool
  | [], _ => true
  | _ :: _, [] => false
  | a :: s, b :: t => a = b && startsWithSeq s t

/-- Does `need` occur as a contiguous sublist of `hay`?  Models Python
`need in hay` on strings (the empty string is contained in everything). -/
def listContainsSub (hay need : List Char) : Bool :=
  match hay with
  | [] => need.isEmpty
  | _ :: t => startsWithSeq need hay || listContainsSub t need

/-- Python `needle in hay` on strings. -/
def containsStr (hay needle : String) : Bool := listContainsSub hay.toList needle.toList

/-- Non-overlapping left-to-right occurrence count of a non-empty `need`,
the recursive core of Python `str.count`. -/
def countSubstrPos : List Char → List Char → ℕ
  | [], _ => 0
  | h :: t, need =>
    if hp : startsWithSeq need (h :: t) = true ∧ 1 ≤ need.length then
      1 + countSubstrPos ((h :: t).drop need.length) need
    else
      countSubstrPos t need
termination_by hay _ => hay.length
decreasing_by
  · simp only [List.length_drop, List.length_cons]
    omega
  · simp only [List.length_cons]
    omega

/-- Python `hay.count(need)`: non-overlapping occurrences; an empty `need`
is counted `len(hay) + 1` times, as in Python. -/
def countSubstr (hay need : List Char) : ℕ :=
  if need.length = 0 then hay.length + 1 else countSubstrPos hay need

/-- Core of Python `str.split(sep)` for a one-character separator:
separator occurrences delimit the segments and empty segments are kept. -/
def splitOnCharAux (sep : Char) : List Char → List Char → List String
  | [], acc => [String.mk acc.reverse]
  | c :: cs, acc =>
    if c = sep then String.mk acc.reverse :: splitOnCharAux sep cs []
    else splitOnCharAux sep cs (c :: acc)

/-- Python `content.split("\n")`. -/
def splitLines (s : String) : List String := splitOnCharAux '\n' s.toList []

/-- Python `content.split("\n\n")`: non-overlapping left-to-right
occurrences of the two-newline separator delimit the segments. -/
def splitOnDoubleNlAux : List Char → List Char → List String
  | [], acc => [String.mk acc.reverse]
  | '\n' :: '\n' :: rest, acc => String.mk acc.reverse :: splitOnDoubleNlAux rest []
  | c :: rest, acc => splitOnDoubleNlAux rest (c :: acc)

/-- Python `content.split("\n\n")`. -/
def splitOnDoubleNl (s : String) : List String := splitOnDoubleNlAux s.toList []

/-- Model of `re.findall(r"\b\w+\b", s)`: the maximal runs of `\w` characters. -/
def findWordsAux : List Char → List Char → List String
  | [], acc => if acc.isEmpty then [] else [String.mk acc.reverse]
  | c :: cs, acc =>
    if isWordChar c then findWordsAux cs (c :: acc)
    else if acc.isEmpty then findWordsAux cs []
    else String.mk acc.reverse :: findWordsAux cs []

/-- `re.findall(r"\b\w+\b", s)` — the word list used for `word_count`. -/
def findWords (s : String) : List String := findWordsAux s.toList []

/-! ## Markdown structure scanners (seo_analysis.py regexes) -/

/-- Number of leading hash marks of a line. -/
def hashCount (l : List Char) : ℕ := (l.takeWhile (fun c => c = '#')).length

/-- After the hash marks, the pattern continues with a backtracking
whitespace-then-text group.  Models the tail of a heading regex of the form
`\s+(.+)$`: at least one whitespace, greedy, followed by at least one
character (the capture group), all within one line. -/
def headingText (rest : List Char) : Option String :=
  match rest with
  | [] => none
  | c :: _ =>
    if pySpace c then
      if 2 ≤ rest.length then
        let w := (rest.takeWhile pySpace).length
        some (String.mk (rest.drop (min w (rest.length - 1))))
      else none
    else none

/-- `re.search(r"^#{n}\s+(.+)$", line)` for one line: exactly `n` leading
hashes (a further hash would make the whitespace test fail). -/
def matchHeadingN (n : ℕ) (line : String) : Option String :=
  let cs := line.toList
  if hashCount cs = n then headingText (cs.drop n) else none

/-- `re.findall(r"^#{1,3}\s+(.+)$", line)` for one line: one to three
leading hashes followed by whitespace. -/
def matchHeading13 (line : String) : Option String :=
  let cs := line.toList
  let t := hashCount cs
  if 1 ≤ t ∧ t ≤ 3 then headingText (cs.drop t) else none

/-- Index of the last newline of a character list, if any. -/
def lastNlIdx : List Char → Option ℕ
  | [] => none
  | c :: t =>
    match lastNlIdx t with
    | some k => some (k + 1)
    | none => if c = '\n' then some 0 else none

/-- Splitter core for `re.split(r"\n\s*\n", content)`.  A separator starts
at a newline whose following maximal whitespace run still contains a
newline; the greedy `\s*` with the final literal `\n` consumes up to and
including the last newline of that run.  The structural `fuel` argument
(at least the length of the scanned list, consumed one unit per examined
character) keeps the recursion kernel-reducible; the fuel-exhausted
fallback is never reached from `paraSplit`. -/
def paraSplitAux : ℕ → List Char → List Char → List String
  | _, [], cur => [String.mk cur.reverse]
  | 0, l, cur => [String.mk (cur.reverse ++ l)]
  | fuel + 1, c :: rest, cur =>
    if c = '\n' then
      match lastNlIdx (rest.takeWhile pySpace) with
      | some k => String.mk cur.reverse :: paraSplitAux fuel (rest.drop (k + 1)) []
      | none => paraSplitAux fuel rest (c :: cur)
    else paraSplitAux fuel rest (c :: cur)

/-- `re.split(r"\n\s*\n", content)` — the paragraph blocks. -/
def paraSplit (s : String) : List String := paraSplitAux s.toList.length s.toList []

/-- `bool(re.search(r"description:|meta description:", content.lower()))`.
The second alternative contains the first, so the search succeeds exactly
when the lowered content contains `"description:"`. -/
def check_meta_description (content : String) : Bool :=
  containsStr (pyLower content) "description:"

/-- Scanner state for `re.findall(r"!\[(.*?)\]", content)`: collect each
lazy capture between `![` and the first following `]` on the same line. -/
def imageAltsAux : List Char → Option (List Char) → List String
  | [], _ => []
  | '!' :: '[' :: r, none => imageAltsAux r (some [])
  | _ :: t, none => imageAltsAux t none
  | c :: t, some acc =>
    if c = ']' then String.mk acc.reverse :: imageAltsAux t none
    else if c = '\n' then imageAltsAux t none
    else imageAltsAux t (some (c :: acc))

/-- `any(img.strip() for img in re.findall(r"!\[(.*?)\]", content))`. -/
def check_image_alt (content : String) : Bool :=
  (imageAltsAux content.toList none).any (fun a => pyTruthyStr (pyStrip a))

/-- After a `)` must eventually close the lazy url group on the same line:
a `)` before any newline. -/
def closeParen : List Char → Bool
  | [] => false
  | c :: t => if c = ')' then true else if c = '\n' then false else closeParen t

/-- After an opening `[`: find some `](` on the same line (the lazy group
with backtracking tries every candidate), then test the url. -/
def afterBracket (urlOk : List Char → Bool) : List Char → Bool
  | [] => false
  | ']' :: '(' :: rest => (urlOk rest && closeParen rest) || afterBracket urlOk ('(' :: rest)
  | '\n' :: _ => false
  | _ :: t => afterBracket urlOk t
termination_by l => l.length
decreasing_by all_goals simp_arith [List.length_cons]

/-- Existence of a markdown link match: scan every `[` of the content. -/
def hasLinkScan (urlOk : List Char → Bool) : List Char → Bool
  | [] => false
  | c :: t => (c = '[' && afterBracket urlOk t) || hasLinkScan urlOk t

/-- `bool(re.search(r"\[.*?\]\((?!http).*?\)", content))`. -/
def check_internal_links (content : String) : Bool :=
  hasLinkScan (fun rest => !startsWithSeq "http".toList rest) content.toList

/-- `bool(re.search(r"\[.*?\]\(https?://.*?\)", content))`. -/
def check_external_links (content : String) : Bool :=
  hasLinkScan
    (fun rest =>
      startsWithSeq "http://".toList rest || startsWithSeq "https://".toList rest)
    content.toList

/-! ## SEOAnalyzer._count_syllables -/

/-- A vowel for the syllable heuristic, including `y` (regex class `[aeiouy]`). -/
def isVowelY (c : Char) : Bool :=
  c = 'a' || c = 'e' || c = 'i' || c = 'o' || c = 'u' || c = 'y'

/-- Count maximal runs of vowels (`re.findall(r"[aeiouy]+", w)` length). -/
def vowelGroupsAux : List Char → Bool → ℕ
  | [], _ => 0
  | c :: t, inV =>
    if isVowelY c then (if inV then 0 else 1) + vowelGroupsAux t true
    else vowelGroupsAux t false

/-- Does `l` end with `suf`? -/
def endsWithSeq (l suf : List Char) : Bool := startsWithSeq suf.reverse l.reverse

/-- `re.sub(r"X$", "", w)` for a literal suffix `X`: drop one occurrence of
the suffix if present. -/
def stripOneSuffix (l suf : List Char) : List Char :=
  if endsWithSeq l suf then l.take (l.length - suf.length) else l

/-- `SEOAnalyzer._count_syllables`: lower-case; words of length at most 3
count one syllable; otherwise strip a trailing `e`, then `es`, then `ed`,
count vowel groups, floor at one. -/
def count_syllables (word : String) : ℕ :=
  let w := pyLower word
  if w.length ≤ 3 then 1
  else
    let l1 := stripOneSuffix w.toList ['e']
    let l2 := stripOneSuffix l1 ['e', 's']
    let l3 := stripOneSuffix l2 ['e', 'd']
    let c := vowelGroupsAux l3 false
    if c = 0 then 1 else c

/-! ## SEOAnalyzer._calculate_readability_score and _analyze_readability -/

/-- The readability metrics dict produced by `_analyze_readability`.
The `smog_index` entry (`1.043·sqrt(complex·30/sentences) + 3.1291`) is
omitted from the record: it feeds no score and no recommendation, and its
square root leaves the rational field. -/
structure ReadabilityMetrics where
  flesch_reading_ease : ℚ
  flesch_kincaid_grade : ℚ
  gunning_fog : ℚ
  avg_sentence_length : ℚ
  complex_word_percentage : ℚ
  readability_score : ℚ
deriving DecidableEq

/-- `SEOAnalyzer._calculate_readability_score`: clamp Flesch Reading Ease
to [0,100]; map grade-shaped values through `max(0, min(18 - v, 18))/18·100`;
average the three. -/
def calculate_readability_score (fre fkg fog : ℚ) : ℚ :=
  let normalized_fre := min (max fre 0) 100
  let normalized_fkg := max 0 (min (18 - fkg) 18) / 18 * 100
  let normalized_fog := max 0 (min (18 - fog) 18) / 18 * 100
  (normalized_fre + normalized_fkg + normalized_fog) / 3

/-- The word list `_analyze_readability` works on: tokens that pass
`str.isalnum()` (case preserved). -/
def readability_words (wordTok : String → List String) (content : String) : List String :=
  (wordTok content).filter pyIsAlnum

/-- `SEOAnalyzer._analyze_readability`.  The source accumulates
`syllable_count` and `complex_word_count` in one loop; they are expressed
here as a mapped sum and a filtered length over the same word list. -/
def analyze_readability (wordTok sentTok : String → List String) (content : String) :
    ReadabilityMetrics :=
  let words := readability_words wordTok content
  let word_count := words.length
  let sentence_count := (sentTok content).length
  let avg_sentence_length : ℚ :=
    if 0 < sentence_count then (word_count : ℚ) / sentence_count else 0
  let syllable_count := (words.map count_syllables).sum
  let complex_word_count := (words.filter (fun w => 3 ≤ count_syllables w)).length
  let cwp : ℚ := if 0 < word_count then (complex_word_count : ℚ) / word_count * 100 else 0
  if 0 < word_count ∧ 0 < sentence_count then
    let flesch_reading_ease :=
      206.835 - 1.015 * avg_sentence_length - 84.6 * ((syllable_count : ℚ) / word_count)
    let flesch_kincaid_grade :=
      0.39 * avg_sentence_length + 11.8 * ((syllable_count : ℚ) / word_count) - 15.59
    let gunning_fog :=
      0.4 * (avg_sentence_length + 100 * ((complex_word_count : ℚ) / word_count))
    { flesch_reading_ease := flesch_reading_ease
      flesch_kincaid_grade := flesch_kincaid_grade
      gunning_fog := gunning_fog
      avg_sentence_length := avg_sentence_length
      complex_word_percentage := cwp
      readability_score :=
        calculate_readability_score flesch_reading_ease flesch_kincaid_grade gunning_fog }
  else
    { flesch_reading_ease := 0
      flesch_kincaid_grade := 0
      gunning_fog := 0
      avg_sentence_length := avg_sentence_length
      complex_word_percentage := cwp
      readability_score := calculate_readability_score 0 0 0 }

/-! ## SEOAnalyzer._analyze_keywords -/

/-- One entry of the per-keyword metrics dict. -/
structure KeywordMetric where
  count : ℕ
  density : ℚ
  in_title : Bool
  in_headings : Bool
  in_first_paragraph : Bool
  in_last_paragraph : Bool
  optimal_density : Bool
deriving DecidableEq

/-- The result of `_analyze_keywords`: the normalized aggregate score and
the keyword dict (an association list in first-insertion order).  The
diagnostic `top_terms` entry (ten most common filtered words) feeds no
score and no recommendation and is omitted. -/
structure KeywordAnalysis where
  keyword_score : ℚ
  keywords : List (String × KeywordMetric)
deriving DecidableEq

/-- The tokenized, lower-cased, stop-word-filtered word list of
`_analyze_keywords`; its length is the variable the source calls
`total_words`. -/
def kw_filtered_words (wordTok : String → List String) (stop_words : List String)
    (content : String) : List String :=
  (((wordTok content).filter pyIsAlnum).map pyLower).filter
    (fun w => !stop_words.contains w)

/-- All `#`/`##`/`###` heading texts (`re.findall(r"^#{1,3}\s+(.+)$", content, re.MULTILINE)`). -/
def headings13 (content : String) : List String :=
  (splitLines content).filterMap matchHeading13

/-- The metric computed for one keyword inside the `_analyze_keywords` loop. -/
def keyword_metric (wordTok : String → List String) (stop_words : List String)
    (content : String) (keyword : String) : KeywordMetric :=
  let filtered := kw_filtered_words wordTok stop_words content
  let total_words := filtered.length
  let kcount : ℕ :=
    if keyword.toList.contains ' ' then
      countSubstr (pyLower content).toList (pyLower keyword).toList
    else
      (filtered.filter (fun w => w = pyLower keyword)).length
  let density : ℚ := if 0 < total_words then (kcount : ℚ) / total_words * 100 else 0
  { count := kcount
    density := density
    in_title :=
      if pyTruthyStr content then
        containsStr (pyLower ((splitLines content).headD "")) (pyLower keyword)
      else false
    in_headings :=
      (headings13 content).any (fun h => containsStr (pyLower h) (pyLower keyword))
    in_first_paragraph :=
      if pyTruthyStr content then
        containsStr (pyLower ((splitOnDoubleNl content).headD "")) (pyLower keyword)
      else false
    in_last_paragraph :=
      if pyTruthyStr content then
        containsStr (pyLower ((splitOnDoubleNl content).getLastD "")) (pyLower keyword)
      else false
    optimal_density := decide ((0.5 : ℚ) ≤ density ∧ density ≤ 2.5) }

/-- Keys of a Python dict filled from a list: first occurrence kept,
later duplicates collapse onto the same entry. -/
def pyDictKeys : List String → List String
  | [] => []
  | k :: t => k :: (pyDictKeys t).filter (fun x => x ≠ k)

/-- Per-keyword contribution to the aggregate keyword score: +1 for a
positive count, +2 in title, +1 in headings, +1 in first paragraph,
+1 for optimal density. -/
def kwPoints (m : KeywordMetric) : ℕ :=
  (if 0 < m.count then 1 else 0) + (if m.in_title then 2 else 0) +
    (if m.in_headings then 1 else 0) + (if m.in_first_paragraph then 1 else 0) +
    (if m.optimal_density then 1 else 0)

/-- `SEOAnalyzer._analyze_keywords`: build the keyword dict, sum the
points, normalize by `len(keyword_metrics) * 6`. -/
def analyze_keywords (wordTok : String → List String) (stop_words : List String)
    (content : String) (target_keywords : List String) : KeywordAnalysis :=
  let entries :=
    (pyDictKeys target_keywords).map
      (fun k => (k, keyword_metric wordTok stop_words content k))
  let keyword_points := (entries.map (fun e => kwPoints e.2)).sum
  let max_possible_score := entries.length * 6
  { keyword_score :=
      if 0 < max_possible_score then
        (keyword_points : ℚ) / max_possible_score * 100
      else 0
    keywords := entries }

/-- Density of a keyword in the result dict, if the keyword is present. -/
def KeywordAnalysis.densityOf (ka : KeywordAnalysis) (k : String) : Option ℚ :=
  (ka.keywords.find? (fun e => e.1 = k)).map (fun e => e.2.density)

/-- Count of a keyword in the result dict, if the keyword is present. -/
def KeywordAnalysis.countOf (ka : KeywordAnalysis) (k : String) : Option ℕ :=
  (ka.keywords.find? (fun e => e.1 = k)).map (fun e => e.2.count)

/-! ## Structure metrics and the overall score -/

/-- A value stored in one of the workflow's string-keyed Python dicts. -/
inductive PyVal where
  | vStr : String → PyVal
  | vNat : ℕ → PyVal
  | vInt : ℤ → PyVal
  | vRat : ℚ → PyVal
  | vBool : Bool → PyVal
  | vNone : PyVal
deriving DecidableEq

/-- The `structure_metrics` dict assembled in `SEOAnalyzer.analyze`. -/
structure StructureMetrics where
  has_title : Bool
  title_length : ℕ
  h2_count : ℕ
  h3_count : ℕ
  paragraph_count : ℕ
  avg_paragraph_length : ℚ
  has_meta_description : Bool
  has_image_alt : Bool
  has_internal_links : Bool
  has_external_links : Bool
deriving DecidableEq

/-- Dict-style read access to `structure_metrics`: exactly the ten keys
assembled in `SEOAnalyzer.analyze` are present.  In particular a lookup of
`"word_count"` yields `none`. -/
def StructureMetrics.dictVal? (sm : StructureMetrics) (k : String) : Option PyVal :=
  if k = "has_title" then some (.vBool sm.has_title)
  else if k = "title_length" then some (.vNat sm.title_length)
  else if k = "h2_count" then some (.vNat sm.h2_count)
  else if k = "h3_count" then some (.vNat sm.h3_count)
  else if k = "paragraph_count" then some (.vNat sm.paragraph_count)
  else if k = "avg_paragraph_length" then some (.vRat sm.avg_paragraph_length)
  else if k = "has_meta_description" then some (.vBool sm.has_meta_description)
  else if k = "has_image_alt" then some (.vBool sm.has_image_alt)
  else if k = "has_internal_links" then some (.vBool sm.has_internal_links)
  else if k = "has_external_links" then some (.vBool sm.has_external_links)
  else none

/-- `structure_metrics.get(key, default)` for an integer-valued key, as
used by `_generate_recommendations` for `"word_count"`. -/
def StructureMetrics.getNatD (sm : StructureMetrics) (k : String) (d : ℕ) : ℕ :=
  match sm.dictVal? k with
  | some (.vNat n) => n
  | _ => d

/-- The title extracted by `SEOAnalyzer.analyze`:
`re.search(r"^#\s+(.+)$", content, re.MULTILINE)`, first matching line,
empty string when absent. -/
def titleOf (content : String) : String :=
  ((splitLines content).findSome? (matchHeadingN 1)).getD ""

/-- The `structure_metrics` computation of `SEOAnalyzer.analyze` (lines
58-93): word and paragraph counts from the regexes above, headings from
the `##`/`###` patterns, boolean checks from the link/image/meta scanners. -/
def structure_metrics_of (content : String) : StructureMetrics :=
  let clean_content := pyLower content
  let word_count := (findWords clean_content).length
  let paragraph_count := (paraSplit content).length
  let title := titleOf content
  { has_title := pyTruthyStr title
    title_length := title.length
    h2_count := ((splitLines content).filterMap (matchHeadingN 2)).length
    h3_count := ((splitLines content).filterMap (matchHeadingN 3)).length
    paragraph_count := paragraph_count
    avg_paragraph_length :=
      if 0 < paragraph_count then (word_count : ℚ) / paragraph_count else 0
    has_meta_description := check_meta_description content
    has_image_alt := check_image_alt content
    has_internal_links := check_internal_links content
    has_external_links := check_external_links content }

/-- The structural point accumulation of `_calculate_seo_score` before the
final `min(structure_score, 100)` clamp: title (+15), title length in
[40,60] (+10, else +5 when positive), two or more H2 (+10, else +5 when
any), two or more H3 (+5), meta description (+15), image alt (+10),
internal link (+10), external link (+10). -/
def structureScoreRaw (sm : StructureMetrics) : ℕ :=
  (if sm.has_title then 15 else 0) +
    (if 40 ≤ sm.title_length ∧ sm.title_length ≤ 60 then 10
     else if 0 < sm.title_length then 5 else 0) +
    (if 2 ≤ sm.h2_count then 10 else if 0 < sm.h2_count then 5 else 0) +
    (if 2 ≤ sm.h3_count then 5 else 0) +
    (if sm.has_meta_description then 15 else 0) +
    (if sm.has_image_alt then 10 else 0) +
    (if sm.has_internal_links then 10 else 0) +
    (if sm.has_external_links then 10 else 0)

/-- The per-content-type weight dict of `_calculate_seo_score`. -/
structure Weights where
  keyword : ℚ
  readability : ℚ
  structureW : ℚ
deriving DecidableEq

/-- Weight table: blog_post, landing_page, product_description, default. -/
def weightsFor (content_type : String) : Weights :=
  if content_type = "blog_post" then ⟨0.3, 0.3, 0.4⟩
  else if content_type = "landing_page" then ⟨0.4, 0.2, 0.4⟩
  else if content_type = "product_description" then ⟨0.5, 0.2, 0.3⟩
  else ⟨0.33, 0.33, 0.34⟩

/-- `SEOAnalyzer._calculate_seo_score`: clamp the structural points at 100
and take the weighted sum of the three component scores. -/
def calculate_seo_score (km : KeywordAnalysis) (rm : ReadabilityMetrics)
    (sm : StructureMetrics) (content_type : String) : ℚ :=
  let structure_score : ℕ := min (structureScoreRaw sm) 100
  let w := weightsFor content_type
  km.keyword_score * w.keyword + rm.readability_score * w.readability +
    (structure_score : ℚ) * w.structureW

/-! ## SEOAnalyzer._generate_recommendations -/

/-- A single-quote character, used by the f-strings of the source. -/
def squote (s : String) : String :=
  String.singleton (Char.ofNat 39) ++ s ++ String.singleton (Char.ofNat 39)

/-- Round to the nearest integer, ties to even (Python `format` rounding). -/
def roundHalfEven (q : ℚ) : ℤ :=
  let f := ⌊q⌋
  let r := q - f
  if r < 1 / 2 then f
  else if 1 / 2 < r then f + 1
  else if f % 2 = 0 then f else f + 1

/-- Left-pad a digit string with zeros to a given width. -/
def padZeros (s : String) (d : ℕ) : String :=
  if d ≤ s.length then s else String.mk (List.replicate (d - s.length) '0') ++ s

/-- Python `format(q, ".df")` for a non-negative value: fixed-point
rendering with `d` fractional digits. -/
def formatFixed (d : ℕ) (q : ℚ) : String :=
  let p : ℤ := (10 : ℤ) ^ d
  let n := roundHalfEven (q * (p : ℚ))
  toString (n / p) ++ "." ++ padZeros (toString (n % p).toNat) d

/-- `SEOAnalyzer._generate_recommendations`.  The list is assembled in
source order: primary-keyword advice, readability advice, structure
advice, then content-length advice.  The content-length step reads
`structure_metrics.get("word_count", 0)`; the dict built by `analyze`
carries no `"word_count"` key, so the lookup is modelled by
`StructureMetrics.getNatD`, which yields the default. -/
def generate_recommendations (km : KeywordAnalysis) (rm : ReadabilityMetrics)
    (sm : StructureMetrics) (content_type : String)
    (target_keywords : List String) : List String :=
  let primary_keyword := target_keywords.headD ""
  let kw_recs :=
    if pyTruthyStr primary_keyword then
      match km.keywords.find? (fun e => e.1 = primary_keyword) with
      | some e =>
        let kd := e.2
        (if !kd.in_title then
            ["Include the primary keyword " ++ squote primary_keyword ++ " in the title"]
          else []) ++
          (if !kd.in_headings then
              ["Include the primary keyword " ++ squote primary_keyword ++
                " in at least one heading"]
            else []) ++
          (if !kd.in_first_paragraph then
              ["Include the primary keyword " ++ squote primary_keyword ++
                " in the first paragraph"]
            else []) ++
          (if !kd.optimal_density then
              if kd.density < 0.5 then
                ["Increase the density of the primary keyword " ++
                  squote primary_keyword ++ " (currently " ++
                  formatFixed 2 kd.density ++ "%)"]
              else if 2.5 < kd.density then
                ["Decrease the density of the primary keyword " ++
                  squote primary_keyword ++
                  " to avoid keyword stuffing (currently " ++
                  formatFixed 2 kd.density ++ "%)"]
              else []
            else [])
      | none => []
    else []
  let read_recs :=
    (if rm.flesch_reading_ease < 60 then
        ["Improve readability by using shorter sentences and simpler words"]
      else []) ++
      (if 20 < rm.avg_sentence_length then
          ["Reduce average sentence length (currently " ++
            formatFixed 1 rm.avg_sentence_length ++ " words)"]
        else []) ++
      (if 20 < rm.complex_word_percentage then
          ["Use simpler words to improve readability"]
        else [])
  let struct_recs :=
    (if !sm.has_title then ["Add a clear title to the content"]
      else if sm.title_length < 40 then
        ["Make the title longer (40-60 characters is optimal)"]
      else if 60 < sm.title_length then
        ["Shorten the title (40-60 characters is optimal)"]
      else []) ++
      (if sm.h2_count < 2 then ["Add more H2 headings to structure your content"]
        else []) ++
      (if !sm.has_meta_description then
          ["Add a meta description to improve search engine visibility"]
        else []) ++
      (if !sm.has_image_alt then ["Add images with descriptive alt text"] else []) ++
      (if !sm.has_internal_links then
          ["Add internal links to other relevant content"]
        else []) ++
      (if !sm.has_external_links then
          ["Add external links to authoritative sources"]
        else [])
  let word_count := sm.getNatD "word_count" 0
  let length_recs :=
    if content_type = "blog_post" ∧ word_count < 1000 then
      ["Increase content length (currently " ++ toString word_count ++
        " words, aim for 1000+ words)"]
    else if content_type = "landing_page" ∧ word_count < 500 then
      ["Increase content length (currently " ++ toString word_count ++
        " words, aim for 500+ words)"]
    else []
  kw_recs ++ read_recs ++ struct_recs ++ length_recs

/-! ## SEOAnalyzer.analyze -/

/-- The analysis dict returned by `SEOAnalyzer.analyze`. -/
structure SEOAnalysis where
  overall_score : ℚ
  word_count : ℕ
  sentence_count : ℕ
  keyword_metrics : KeywordAnalysis
  readability_metrics : ReadabilityMetrics
  structure_metrics : StructureMetrics
  recommendations : List String
deriving DecidableEq

/-- `SEOAnalyzer.analyze`, parametrized by the two NLTK tokenizers and the
NLTK stop-word list.  Keyword analysis runs on the lower-cased content,
readability and structure on the original. -/
def analyze (wordTok sentTok : String → List String) (stop_words : List String)
    (content : String) (target_keywords : List String) (content_type : String) :
    SEOAnalysis :=
  let clean_content := pyLower content
  let keyword_metrics := analyze_keywords wordTok stop_words clean_content target_keywords
  let readability_metrics := analyze_readability wordTok sentTok content
  let sm := structure_metrics_of content
  { overall_score := calculate_seo_score keyword_metrics readability_metrics sm content_type
    word_count := (findWords clean_content).length
    sentence_count := (sentTok content).length
    keyword_metrics := keyword_metrics
    readability_metrics := readability_metrics
    structure_metrics := sm
    recommendations :=
      generate_recommendations keyword_metrics readability_metrics sm content_type
        target_keywords }

/-! ## models.py -/

/-- `ContentType` enum (string-valued, `use_enum_values = True`). -/
inductive ContentType where
  | blog_post | social_media | email | landing_page
  | product_description | ad_copy | press_release | custom
deriving DecidableEq

/-- The string value of a `ContentType` member. -/
def ContentType.toVal : ContentType → String
  | .blog_post => "blog_post"
  | .social_media => "social_media"
  | .email => "email"
  | .landing_page => "landing_page"
  | .product_description => "product_description"
  | .ad_copy => "ad_copy"
  | .press_release => "press_release"
  | .custom => "custom"

/-- `ToneType` enum. -/
inductive ToneType where
  | professional | conversational | enthusiastic | informative
  | persuasive | humorous | formal | casual
deriving DecidableEq

/-- The string value of a `ToneType` member. -/
def ToneType.toVal : ToneType → String
  | .professional => "professional"
  | .conversational => "conversational"
  | .enthusiastic => "enthusiastic"
  | .informative => "informative"
  | .persuasive => "persuasive"
  | .humorous => "humorous"
  | .formal => "formal"
  | .casual => "casual"

/-- `AudienceType` enum. -/
inductive AudienceType where
  | general | technical | business | consumer
  | expert | beginner | youth | senior
deriving DecidableEq

/-- The string value of an `AudienceType` member. -/
def AudienceType.toVal : AudienceType → String
  | .general => "general"
  | .technical => "technical"
  | .business => "business"
  | .consumer => "consumer"
  | .expert => "expert"
  | .beginner => "beginner"
  | .youth => "youth"
  | .senior => "senior"

/-- The `ContentRequest` pydantic model of models.py. -/
structure ContentRequest where
  content_type : ContentType
  topic : String
  tone : ToneType
  audience : AudienceType
  keywords : List String
  word_count : Option ℤ
  include_research : Bool
  custom_instructions : Option String
  references : Option (List String)
deriving DecidableEq

/-- Pydantic construction of a `ContentRequest`.  models.py declares the
fields with plain types and no validators, value constraints or
constrained-field annotations, so pydantic checks types only: every
type-correct argument combination is accepted, and construction never
raises a validation error. -/
def ContentRequest.construct (content_type : ContentType) (topic : String)
    (tone : ToneType) (audience : AudienceType) (keywords : List String)
    (word_count : Option ℤ) (include_research : Bool)
    (custom_instructions : Option String) (references : Option (List String)) :
    Except String ContentRequest :=
  .ok
    { content_type := content_type
      topic := topic
      tone := tone
      audience := audience
      keywords := keywords
      word_count := word_count
      include_research := include_research
      custom_instructions := custom_instructions
      references := references }

/-- `ResearchResult` model. -/
structure ResearchResult where
  source : String
  title : String
  snippet : String
  url : String
deriving DecidableEq

/-- `ContentResponse` model: plain `str` content, no constraints. -/
structure ContentResponse where
  content : String
  metadata : List (String × PyVal)
  research_results : Option (List ResearchResult)
deriving DecidableEq

/-! ## graph_agent.py — workflow state and nodes -/

/-- The `AgentState` TypedDict.  `seo_analysis` is represented by its
`overall_score`, the only entry of the analysis dict the workflow reads
(the improvement prompt built from the full dict only feeds the abstract
model collaborator). -/
structure AgentState where
  content_request : ContentRequest
  research_results : Option (List ResearchResult)
  prompt : Option String
  content : Option String
  enhanced_content : Option String
  seo_analysis : Option ℚ
  seo_optimized_content : Option String
  metadata : List (String × PyVal)
  status : String
  error : Option String
deriving DecidableEq

/-- Python dict update `d[k] = v` / merge `{**d, k: v}`: replace the value
at an existing key, else append the new pair. -/
def pyDictSet : List (String × PyVal) → String → PyVal → List (String × PyVal)
  | [], k, v => [(k, v)]
  | p :: t, k, v => if p.1 = k then (k, v) :: t else p :: pyDictSet t k v

/-- Dict lookup. -/
def pyDictGet (d : List (String × PyVal)) (k : String) : Option PyVal :=
  (d.find? (fun p => p.1 = k)).map (fun p => p.2)

/-- `initialize_state`. -/
def initializeState (content_request : ContentRequest) : AgentState :=
  { content_request := content_request
    research_results := none
    prompt := none
    content := none
    enhanced_content := none
    seo_analysis := none
    seo_optimized_content := none
    metadata :=
      [("content_type", .vStr content_request.content_type.toVal),
        ("topic", .vStr content_request.topic),
        ("tone", .vStr content_request.tone.toVal),
        ("audience", .vStr content_request.audience.toVal),
        ("word_count",
          match content_request.word_count with
          | some n => .vInt n
          | none => .vNone),
        ("model_used", .vStr "gemini-1.5-pro-latest")]
    status := "initialized"
    error := none }

/-- `perform_research` node.  The search collaborator is abstracted as the
outcome `searchR` of the query the node would issue; on failure the node
degrades to no research. -/
def performResearch (searchR : Except String (List ResearchResult))
    (s : AgentState) : AgentState :=
  if !s.content_request.include_research then
    { s with research_results := none, status := "research_skipped" }
  else
    match searchR with
    | .ok rs => { s with research_results := some rs, status := "research_completed" }
    | .error e =>
      { s with research_results := none, status := "research_failed", error := some e }

/-- `generate_prompt` node.  `generate_copywriting_prompt` is pure string
templating over the request and research results, abstracted as the
parameter `promptOf`; in the model it cannot raise, so the node always
succeeds. -/
def generatePrompt
    (promptOf : ContentRequest → Option (List ResearchResult) → String)
    (s : AgentState) : AgentState :=
  { s with
    prompt := some (promptOf s.content_request s.research_results)
    status := "prompt_generated" }

/-- `generate_content` node.  The generative-model collaborator's outcome
for this call is `r`; a missing API key raises inside the `try` and is
covered by the error case.  On success the node also rewrites
`metadata["model_used"]`. -/
def generateContentNode (r : Except String String) (s : AgentState) : AgentState :=
  match r with
  | .ok c =>
    { s with
      content := some c
      status := "content_generated"
      metadata := pyDictSet s.metadata "model_used" (.vStr "gemini-1.5-pro-latest") }
  | .error e =>
    { s with content := none, status := "content_generation_failed", error := some e }

/-- `apply_direct_response_principles` node (the enhancement stage).  On
failure it falls back to `state["content"]`. -/
def enhanceNode (r : Except String String) (s : AgentState) : AgentState :=
  match r with
  | .ok c => { s with enhanced_content := some c, status := "content_enhanced" }
  | .error e =>
    { s with enhanced_content := s.content, status := "enhancement_failed", error := some e }

/-- `analyze_seo` node.  `scoreOf` abstracts `SEOAnalyzer.analyze`
restricted to the `overall_score` the workflow consumes; the analyzer is
total, so only the skip branch and the success branch occur. -/
def analyzeSeoNode (scoreOf : String → ℚ) (s : AgentState) : AgentState :=
  let content := pyOr s.enhanced_content s.content
  if !pyTruthy content then
    { s with
      seo_analysis := none
      status := "seo_analysis_skipped"
      error := some "No content available for SEO analysis" }
  else
    { s with
      seo_analysis := some (scoreOf (content.getD ""))
      status := "seo_analysis_completed" }

/-- `optimize_seo` node.  `r` is the generative-model outcome for the
potential rewrite call; when the score is at least 85 the node skips the
rewrite and only propagates the score into metadata. -/
def optimizeSeoNode (r : Except String String) (s : AgentState) : AgentState :=
  let content := pyOr s.enhanced_content s.content
  if !pyTruthy content || s.seo_analysis.isNone then
    { s with seo_optimized_content := content, status := "seo_optimization_skipped" }
  else
    match s.seo_analysis with
    | some score =>
      if 85 ≤ score then
        { s with
          seo_optimized_content := content
          status := "seo_optimization_skipped"
          metadata := pyDictSet s.metadata "seo_score" (.vRat score) }
      else
        match r with
        | .ok oc =>
          { s with
            seo_optimized_content := some oc
            status := "seo_optimization_completed"
            metadata := pyDictSet s.metadata "seo_score" (.vRat score) }
        | .error e =>
          { s with
            seo_optimized_content := pyOr s.enhanced_content s.content
            status := "seo_optimization_failed"
            error := some e }
    | none =>
      { s with seo_optimized_content := content, status := "seo_optimization_skipped" }

/-! ## graph_agent.py — the compiled pipeline -/

/-- State after the `research` stage. -/
def stateAfterResearch (searchR : Except String (List ResearchResult))
    (req : ContentRequest) : AgentState :=
  performResearch searchR (initializeState req)

/-- State after the `generate_prompt` stage. -/
def stateAfterPrompt (searchR : Except String (List ResearchResult))
    (promptOf : ContentRequest → Option (List ResearchResult) → String)
    (req : ContentRequest) : AgentState :=
  generatePrompt promptOf (stateAfterResearch searchR req)

/-- State after the `generate_content` stage; the generative model is a
call-indexed oracle, the generation call being call 0. -/
def stateAfterGenerate (searchR : Except String (List ResearchResult))
    (promptOf : ContentRequest → Option (List ResearchResult) → String)
    (model : ℕ → Except String String) (req : ContentRequest) : AgentState :=
  generateContentNode (model 0) (stateAfterPrompt searchR promptOf req)

/-- State after the `enhance_content` stage (model call 1). -/
def stateAfterEnhance (searchR : Except String (List ResearchResult))
    (promptOf : ContentRequest → Option (List ResearchResult) → String)
    (model : ℕ → Except String String) (req : ContentRequest) : AgentState :=
  enhanceNode (model 1) (stateAfterGenerate searchR promptOf model req)

/-- State after the `analyze_seo` stage. -/
def stateAfterAnalyze (searchR : Except String (List ResearchResult))
    (promptOf : ContentRequest → Option (List ResearchResult) → String)
    (model : ℕ → Except String String) (scoreOf : String → ℚ)
    (req : ContentRequest) : AgentState :=
  analyzeSeoNode scoreOf (stateAfterEnhance searchR promptOf model req)

/-- Final state after `optimize_seo` (model call 2 when taken); the
conditional edge always routes to `complete`. -/
def finalWorkflowState (searchR : Except String (List ResearchResult))
    (promptOf : ContentRequest → Option (List ResearchResult) → String)
    (model : ℕ → Except String String) (scoreOf : String → ℚ)
    (req : ContentRequest) : AgentState :=
  optimizeSeoNode (model 2) (stateAfterAnalyze searchR promptOf model scoreOf req)

/-- The final-content priority chain of `CopywritingGraphAgent.generate_content`:
`seo_optimized_content or enhanced_content or content or ""`. -/
def resolveFinalContent (s : AgentState) : String :=
  (pyOr (pyOr (pyOr s.seo_optimized_content s.enhanced_content) s.content)
      (some "")).getD ""

/-- `CopywritingGraphAgent.generate_content`: run the pipeline, add the
SEO score to metadata when an analysis is present, and build the
`ContentResponse`.  No node of the compiled graph lets an exception
escape, so the runner always returns a response. -/
def runWorkflow (searchR : Except String (List ResearchResult))
    (promptOf : ContentRequest → Option (List ResearchResult) → String)
    (model : ℕ → Except String String) (scoreOf : String → ℚ)
    (req : ContentRequest) : ContentResponse :=
  let s := finalWorkflowState searchR promptOf model scoreOf req
  let metadata :=
    match s.seo_analysis with
    | some q => pyDictSet s.metadata "seo_score" (.vRat q)
    | none => s.metadata
  { content := resolveFinalContent s
    metadata := metadata
    research_results := s.research_results }

/-! ## Concrete collaborator instances used in witnesses -/

/-- A minimal concrete word tokenizer (split on spaces), standing in for
the external NLTK `word_tokenize` in witness instantiations. -/
def simpleWordTok (s : String) : List String :=
  (splitOnCharAux ' ' s.toList []).filter (fun w => w ≠ "")

/-- A minimal concrete sentence tokenizer, standing in for the external
NLTK `sent_tokenize` in witness instantiations. -/
def simpleSentTok (s : String) : List String := if s = "" then [] else [s]

/-! ## Spec-side readability formula (for the refinement comparison) -/

/-- `clamp(x, lo, hi)` as written in the specification. -/
def clampQ (x lo hi : ℚ) : ℚ := min (max x lo) hi

/-- The readability score exactly as the specification words it: the
average of Flesch Reading Ease clamped to [0,100] and the Flesch-Kincaid
Grade and Gunning Fog values each transformed as
`clamp(18 - value, 0, 18) / 18 * 100`, over a text of `wc` words, `sc`
sentences, `syll` syllables and `cwc` complex words. -/
def spec_readability_score (wc sc syll cwc : ℕ) : ℚ :=
  let asl : ℚ := (wc : ℚ) / (sc : ℚ)
  let fre := 206.835 - 1.015 * asl - 84.6 * ((syll : ℚ) / (wc : ℚ))
  let fkg := 0.39 * asl + 11.8 * ((syll : ℚ) / (wc : ℚ)) - 15.59
  let fog := 0.4 * (asl + 100 * ((cwc : ℚ) / (wc : ℚ)))
  (clampQ fre 0 100 + clampQ (18 - fkg) 0 18 / 18 * 100 +
      clampQ (18 - fog) 0 18 / 18 * 100) / 3

/-! ## Concrete workflow instances used in counterexamples and witnesses -/

/-- A concrete request (research disabled so the search collaborator is idle). -/
def req0 : ContentRequest :=
  { content_type := .blog_post
    topic := "t"
    tone := .conversational
    audience := .general
    keywords := []
    word_count := none
    include_research := false
    custom_instructions := none
    references := none }

/-- A model oracle that succeeds on the generation call, raises on the
enhancement call, and succeeds again on the optimization call. -/
def flakyModel : ℕ → Except String String :=
  fun n => if n = 0 then .ok "A" else if n = 1 then .error "model down" else .ok "B"

/-- A model oracle whose generation call succeeds with empty output and
which raises afterwards. -/
def emptyGenModel : ℕ → Except String String :=
  fun n => if n = 0 then .ok "" else .error "model down"

/-- A model oracle that succeeds once and then stays down. -/
def downAfterFirstModel : ℕ → Except String String :=
  fun n => if n = 0 then .ok "Generated copy." else .error "down"

/-- A model oracle that raises on every call. -/
def failModel : ℕ → Except String String := fun _ => .error "model unavailable"

/-- A concrete workflow state entering `optimize_seo` with a score of 90. -/
def highScoreState : AgentState :=
  { content_request := req0
    research_results := none
    prompt := some "p"
    content := some "A"
    enhanced_content := some "A"
    seo_analysis := some 90
    seo_optimized_content := none
    metadata := [("topic", .vStr "t")]
    status := "seo_analysis_completed"
    error := none }

/-! ## Helper lemmas -/

/-- Each keyword contributes at most 1+2+1+1+1 = 6 points. -/
theorem kwPoints_le_six (m : KeywordMetric) : kwPoints m ≤ 6 := by
  unfold kwPoints
  split_ifs <;> omega

/-- The summed points are bounded by six per dict entry. -/
theorem sum_kwPoints_le (l : List (String × KeywordMetric)) :
    (l.map (fun e => kwPoints e.2)).sum ≤ 6 * l.length := by
  induction l with
  | nil => simp
  | cons h t ih =>
    simp only [List.map_cons, List.sum_cons, List.length_cons]
    have hh := kwPoints_le_six h.2
    omega

/-- The normalized keyword score of `_analyze_keywords` lies in [0,100]. -/
theorem keyword_score_bounds (wT : String → List String) (sw : List String)
    (c : String) (kws : List String) :
    0 ≤ (analyze_keywords wT sw c kws).keyword_score ∧
      (analyze_keywords wT sw c kws).keyword_score ≤ 100 := by
  unfold analyze_keywords
  dsimp only
  set l := (pyDictKeys kws).map (fun k => (k, keyword_metric wT sw c k)) with hl
  have hsum := sum_kwPoints_le l
  by_cases h : 0 < l.length * 6
  · rw [if_pos h]
    constructor
    · positivity
    · have hml : (0 : ℚ) < ((l.length * 6 : ℕ) : ℚ) := by exact_mod_cast h
      have h1 : ((l.map (fun e => kwPoints e.2)).sum : ℚ) / ((l.length * 6 : ℕ) : ℚ) ≤ 1 := by
        rw [div_le_one hml]
        exact_mod_cast (by omega : (l.map (fun e => kwPoints e.2)).sum ≤ l.length * 6)
      calc ((l.map (fun e => kwPoints e.2)).sum : ℚ) / ((l.length * 6 : ℕ) : ℚ) * 100
          ≤ 1 * 100 := by
            exact mul_le_mul_of_nonneg_right h1 (by norm_num)
        _ = 100 := by norm_num
  · rw [if_neg h]
    norm_num

/-- The readability normalization clamps every component into [0,100]. -/
theorem calculate_readability_score_bounds (a b c : ℚ) :
    0 ≤ calculate_readability_score a b c ∧ calculate_readability_score a b c ≤ 100 := by
  unfold calculate_readability_score
  have h1a : (0 : ℚ) ≤ min (max a 0) 100 := le_min (le_max_right a 0) (by norm_num)
  have h1b : min (max a 0) 100 ≤ 100 := min_le_right _ _
  have h2a : (0 : ℚ) ≤ max 0 (min (18 - b) 18) / 18 * 100 := by positivity
  have h2b : max 0 (min (18 - b) 18) / 18 * 100 ≤ 100 := by
    have hb : max 0 (min (18 - b) 18) ≤ 18 :=
      max_le (by norm_num) (min_le_right _ _)
    have : max 0 (min (18 - b) 18) / 18 ≤ 1 := by
      rw [div_le_one (by norm_num : (0 : ℚ) < 18)]
      exact hb
    nlinarith
  have h3a : (0 : ℚ) ≤ max 0 (min (18 - c) 18) / 18 * 100 := by positivity
  have h3b : max 0 (min (18 - c) 18) / 18 * 100 ≤ 100 := by
    have hc : max 0 (min (18 - c) 18) ≤ 18 :=
      max_le (by norm_num) (min_le_right _ _)
    have : max 0 (min (18 - c) 18) / 18 ≤ 1 := by
      rw [div_le_one (by norm_num : (0 : ℚ) < 18)]
      exact hc
    nlinarith
  constructor <;> · dsimp only; linarith

/-- The readability score returned by `_analyze_readability` lies in [0,100]
on every input (both guard branches call the same normalization). -/
theorem analyze_readability_score_bounds (wT sT : String → List String) (c : String) :
    0 ≤ (analyze_readability wT sT c).readability_score ∧
      (analyze_readability wT sT c).readability_score ≤ 100 := by
  unfold analyze_readability
  dsimp only
  split
  · exact calculate_readability_score_bounds _ _ _
  · exact calculate_readability_score_bounds _ _ _

/-- The structural point allocations sum to at most 15+10+10+5+15+10+10+10 = 85. -/
theorem structureScoreRaw_le (sm : StructureMetrics) : structureScoreRaw sm ≤ 85 := by
  unfold structureScoreRaw
  split_ifs <;> omega

/-- Every row of the weight table is non-negative and sums to at most 1
(each of the four rows sums to exactly 1). -/
theorem weightsFor_bounds (ct : String) :
    0 ≤ (weightsFor ct).keyword ∧ 0 ≤ (weightsFor ct).readability ∧
      0 ≤ (weightsFor ct).structureW ∧
      (weightsFor ct).keyword + (weightsFor ct).readability +
        (weightsFor ct).structureW ≤ 1 := by
  unfold weightsFor
  split_ifs <;> norm_num

/-- Weighted sum of clamped components stays in [0,100]. -/
theorem calculate_seo_score_bounds (km : KeywordAnalysis) (rm : ReadabilityMetrics)
    (sm : StructureMetrics) (ct : String)
    (hk0 : 0 ≤ km.keyword_score) (hk1 : km.keyword_score ≤ 100)
    (hr0 : 0 ≤ rm.readability_score) (hr1 : rm.readability_score ≤ 100) :
    0 ≤ calculate_seo_score km rm sm ct ∧ calculate_seo_score km rm sm ct ≤ 100 := by
  unfold calculate_seo_score
  obtain ⟨w1, w2, w3, wsum⟩ := weightsFor_bounds ct
  have hs0 : (0 : ℚ) ≤ ((min (structureScoreRaw sm) 100 : ℕ) : ℚ) := by positivity
  have hs1 : ((min (structureScoreRaw sm) 100 : ℕ) : ℚ) ≤ 100 := by
    exact_mod_cast min_le_right (structureScoreRaw sm) 100
  dsimp only
  constructor
  · have := mul_nonneg hk0 w1
    have := mul_nonneg hr0 w2
    have := mul_nonneg hs0 w3
    linarith
  · have h1 : km.keyword_score * (weightsFor ct).keyword ≤ 100 * (weightsFor ct).keyword :=
      mul_le_mul_of_nonneg_right hk1 w1
    have h2 : rm.readability_score * (weightsFor ct).readability ≤
        100 * (weightsFor ct).readability :=
      mul_le_mul_of_nonneg_right hr1 w2
    have h3 : ((min (structureScoreRaw sm) 100 : ℕ) : ℚ) * (weightsFor ct).structureW ≤
        100 * (weightsFor ct).structureW :=
      mul_le_mul_of_nonneg_right hs1 w3
    linarith

/-- Updating a dict key and reading it back yields the written value. -/
theorem pyDictGet_set (d : List (String × PyVal)) (k : String) (v : PyVal) :
    pyDictGet (pyDictSet d k v) k = some v := by
  induction d with
  | nil => simp [pyDictSet, pyDictGet, List.find?]
  | cons p t ih =>
    by_cases h : p.1 = k
    · simp [pyDictSet, h, pyDictGet, List.find?]
    · unfold pyDictSet
      rw [if_neg h]
      unfold pyDictGet at ih ⊢
      rw [List.find?_cons_of_neg _ (by simpa using h)]
      exact ih

/-- Looking up a key of a dict obtained by tabulating a function over a
key list that contains it returns the tabulated entry. -/
theorem find?_keys_map {β : Type} (f : String → β) :
    ∀ (keys : List String) (k : String), k ∈ keys →
      (keys.map (fun x => (x, f x))).find? (fun e => e.1 = k) = some (k, f k) := by
  intro keys
  induction keys with
  | nil => intro k hk; cases hk
  | cons x t ih =>
    intro k hk
    by_cases hx : x = k
    · subst hx
      simp [List.find?]
    · have hkt : k ∈ t := by
        rcases hk with _ | h
        · exact absurd rfl hx
        · assumption
      simp only [List.map_cons]
      rw [List.find?_cons_of_neg _ (by simpa using hx)]
      exact ih k hkt

/-! ## Claim theorems -/

/-- C1: for every content string, keyword list and content type, the
`overall_score` of `SEOAnalyzer.analyze` lies in [0,100]; the keyword and
readability component scores are normalized into [0,100] and the clamped
structure score is at most 100 before the weighted sum; every weight
table row is non-negative and sums to at most 1.  Quantified over every
behavior of the external tokenizers and stop-word list. -/
theorem c1_overall_score_bounds (wT sT : String → List String) (sw : List String)
    (content : String) (kws : List String) (ct : String) :
    (0 ≤ (analyze wT sT sw content kws ct).overall_score ∧
        (analyze wT sT sw content kws ct).overall_score ≤ 100) ∧
      (0 ≤ (analyze wT sT sw content kws ct).keyword_metrics.keyword_score ∧
        (analyze wT sT sw content kws ct).keyword_metrics.keyword_score ≤ 100) ∧
      (0 ≤ (analyze wT sT sw content kws ct).readability_metrics.readability_score ∧
        (analyze wT sT sw content kws ct).readability_metrics.readability_score ≤ 100) ∧
      min (structureScoreRaw (analyze wT sT sw content kws ct).structure_metrics) 100 ≤ 100 ∧
      (0 ≤ (weightsFor ct).keyword ∧ 0 ≤ (weightsFor ct).readability ∧
        0 ≤ (weightsFor ct).structureW ∧
        (weightsFor ct).keyword + (weightsFor ct).readability +
            (weightsFor ct).structureW ≤ 1) := by
  have hk := keyword_score_bounds wT sw (pyLower content) kws
  have hr := analyze_readability_score_bounds wT sT content
  have hov :=
    calculate_seo_score_bounds (analyze_keywords wT sw (pyLower content) kws)
      (analyze_readability wT sT content) (structure_metrics_of content) ct
      hk.1 hk.2 hr.1 hr.2
  exact ⟨hov, hk, hr, Nat.min_le_right _ _, weightsFor_bounds ct⟩

/-- C2 counterexample: for the text "the cat" with stop word "the" and
keyword "cat", the analyzer reports density 100 (denominator: the
stop-word-filtered count 1), while count divided by the total word count
2 would give 50 - the claimed formula `count / total_words * 100` with
`total_words` the text's total word count is false here. -/
theorem c2_counterexample :
    (analyze_keywords simpleWordTok ["the"] "the cat" ["cat"]).countOf "cat" = some 1 ∧
      (findWords "the cat").length = 2 ∧
      (kw_filtered_words simpleWordTok ["the"] "the cat").length = 1 ∧
      (analyze_keywords simpleWordTok ["the"] "the cat" ["cat"]).densityOf "cat" =
        some 100 ∧
      ¬((100 : ℚ) = (1 : ℚ) / (2 : ℚ) * 100) := by
  refine ⟨by decide, by decide, by decide, ?_, by norm_num⟩
  unfold analyze_keywords KeywordAnalysis.densityOf
  dsimp only
  rw [find?_keys_map (keyword_metric simpleWordTok ["the"] "the cat") (pyDictKeys ["cat"])
      "cat" (by decide)]
  simp only [Option.map_some']
  congr 1
  unfold keyword_metric
  dsimp only
  rw [show (kw_filtered_words simpleWordTok ["the"] "the cat").length = 1 by decide]
  rw [if_pos (by norm_num : (0 : ℕ) < 1)]
  rw [if_neg (by decide : ¬"cat".toList.contains ' ' = true)]
  rw [show (List.filter (fun w => w = pyLower "cat")
      (kw_filtered_words simpleWordTok ["the"] "the cat")).length = 1 by decide]
  norm_num

/-- C2 (amended): the density of every requested keyword equals
`count / total_words * 100` where `total_words` is the length of the
tokenized, stop-word-filtered word list (the source's `total_words`
variable), with density 0 when that filtered count is 0. -/
theorem c2_density_uses_filtered_count (wT : String → List String) (sw : List String)
    (content : String) (kws : List String) (k : String) (hk : k ∈ pyDictKeys kws) :
    (analyze_keywords wT sw content kws).densityOf k =
      some
        (if 0 < (kw_filtered_words wT sw content).length then
          ((keyword_metric wT sw content k).count : ℚ) /
              ((kw_filtered_words wT sw content).length : ℚ) * 100
        else 0) := by
  unfold analyze_keywords KeywordAnalysis.densityOf
  dsimp only
  rw [find?_keys_map (keyword_metric wT sw content) (pyDictKeys kws) k hk]
  rfl

/-- C2 amended claim instantiated at the counterexample input. -/
theorem c2_density_uses_filtered_count_witness :
    "cat" ∈ pyDictKeys ["cat"] ∧
      (analyze_keywords simpleWordTok ["the"] "the cat" ["cat"]).densityOf "cat" =
        some
          (if 0 < (kw_filtered_words simpleWordTok ["the"] "the cat").length then
            ((keyword_metric simpleWordTok ["the"] "the cat" "cat").count : ℚ) /
                ((kw_filtered_words simpleWordTok ["the"] "the cat").length : ℚ) * 100
          else 0) :=
  ⟨by decide,
    c2_density_uses_filtered_count simpleWordTok ["the"] "the cat" ["cat"] "cat"
      (by decide)⟩

/-- C6 counterexample: constructing a `ContentRequest` with empty topic
and negative word count succeeds (pydantic validates types only; no
value validators exist), and the accepted request initializes the
workflow state normally - the claimed construction-time rejection does
not happen. -/
theorem c6_counterexample :
    ContentRequest.construct .blog_post "" .conversational .general [] (some (-1)) true
        none none =
      .ok
        { content_type := .blog_post
          topic := ""
          tone := .conversational
          audience := .general
          keywords := []
          word_count := some (-1)
          include_research := true
          custom_instructions := none
          references := none } ∧
      (initializeState
          { content_type := .blog_post
            topic := ""
            tone := .conversational
            audience := .general
            keywords := []
            word_count := some (-1)
            include_research := true
            custom_instructions := none
            references := none }).status = "initialized" :=
  ⟨rfl, rfl⟩

/-- C6 (amended): `ContentRequest` construction performs no value
validation: every type-correct argument combination - including an empty
topic and a negative word count - is accepted verbatim. -/
theorem c6_construction_never_rejects (ct : ContentType) (topic : String)
    (tone : ToneType) (aud : AudienceType) (kws : List String) (wc : Option ℤ)
    (ir : Bool) (ci : Option String) (refs : Option (List String)) :
    ContentRequest.construct ct topic tone aud kws wc ir ci refs =
      .ok
        { content_type := ct
          topic := topic
          tone := tone
          audience := aud
          keywords := kws
          word_count := wc
          include_research := ir
          custom_instructions := ci
          references := refs } := rfl

/-- C10: for every content string the structural point accumulation is at
most 85 = 15+10+10+5+15+10+10+10, so the final `min(_, 100)` clamp never
binds and the structure component can never reach 100; the bound holds
for every metrics record whatsoever. -/
theorem c10_structure_score_bound (content : String) :
    structureScoreRaw (structure_metrics_of content) ≤ 85 ∧
      min (structureScoreRaw (structure_metrics_of content)) 100 =
        structureScoreRaw (structure_metrics_of content) ∧
      structureScoreRaw (structure_metrics_of content) < 100 ∧
      ∀ sm : StructureMetrics, structureScoreRaw sm ≤ 85 := by
  have h := structureScoreRaw_le (structure_metrics_of content)
  exact ⟨h, Nat.min_eq_left (by omega), by omega, structureScoreRaw_le⟩

/-- C7: for texts with at least one word and one sentence, the analyzer's
readability score is exactly the average of the three spec formulas (Flesch
Reading Ease clamped to [0,100]; Flesch-Kincaid Grade and Gunning Fog each
mapped through `clamp(18 - value, 0, 18) / 18 * 100`); and when the word or
sentence count is 0 the raw formula values are all 0. -/
theorem c7_readability_score_formula (wT sT : String → List String) (content : String) :
    (1 ≤ (readability_words wT content).length →
      1 ≤ (sT content).length →
      (analyze_readability wT sT content).readability_score =
        spec_readability_score (readability_words wT content).length
          (sT content).length
          ((readability_words wT content).map count_syllables).sum
          ((readability_words wT content).filter
              (fun w => 3 ≤ count_syllables w)).length) ∧
      ((readability_words wT content).length = 0 ∨ (sT content).length = 0 →
        (analyze_readability wT sT content).flesch_reading_ease = 0 ∧
          (analyze_readability wT sT content).flesch_kincaid_grade = 0 ∧
          (analyze_readability wT sT content).gunning_fog = 0) := by
  have hswap : ∀ x : ℚ, max 0 (min x 18) = clampQ x 0 18 := by
    intro x
    unfold clampQ
    rw [max_min_distrib_left]
    rw [max_comm (0 : ℚ) x]
    rw [show max (0 : ℚ) 18 = 18 from max_eq_right (by norm_num)]
  constructor
  · intro hw hs
    unfold analyze_readability
    dsimp only
    rw [if_pos ⟨by omega, by omega⟩]
    rw [if_pos (by omega : 0 < (sT content).length)]
    unfold calculate_readability_score spec_readability_score
    dsimp only
    rw [hswap, hswap]
    rfl
  · intro h
    unfold analyze_readability
    dsimp only
    rw [if_neg (by omega : ¬(0 < (readability_words wT content).length ∧
        0 < (sT content).length))]
    exact ⟨rfl, rfl, rfl⟩

/-- C7 instantiated: the text "Hello world." under the concrete
tokenizers has one alphanumeric word and one sentence, and the analyzer
score equals the spec formula there. -/
theorem c7_readability_score_formula_witness :
    1 ≤ (readability_words simpleWordTok "Hello world.").length ∧
      1 ≤ (simpleSentTok "Hello world.").length ∧
      (analyze_readability simpleWordTok simpleSentTok "Hello world.").readability_score =
        spec_readability_score (readability_words simpleWordTok "Hello world.").length
          (simpleSentTok "Hello world.").length
          ((readability_words simpleWordTok "Hello world.").map count_syllables).sum
          ((readability_words simpleWordTok "Hello world.").filter
              (fun w => 3 ≤ count_syllables w)).length :=
  ⟨by decide, by decide,
    (c7_readability_score_formula simpleWordTok simpleSentTok "Hello world.").1
      (by decide) (by decide)⟩

/-- On empty text the keyword metric of every keyword is all-zero: the
filtered word list is empty, both count branches yield 0, the density
guard takes its zero branch, and every placement flag is false. -/
theorem keyword_metric_empty (wT : String → List String) (sw : List String) (k : String)
    (hw : wT "" = []) :
    keyword_metric wT sw "" k =
      { count := 0
        density := 0
        in_title := false
        in_headings := false
        in_first_paragraph := false
        in_last_paragraph := false
        optimal_density := false } := by
  have hfil : kw_filtered_words wT sw "" = [] := by
    unfold kw_filtered_words
    rw [hw]
    rfl
  unfold keyword_metric
  dsimp only
  rw [hfil]
  have hcount :
      (if k.toList.contains ' ' = true then
        countSubstr (pyLower "").toList (pyLower k).toList
      else (List.filter (fun w => w = pyLower k) ([] : List String)).length) = 0 := by
    by_cases hsp : k.toList.contains ' ' = true
    · rw [if_pos hsp]
      have hne : ¬(pyLower k).toList.length = 0 := by
        have hmem : ' ' ∈ k.toList := by simpa using hsp
        have hnn : k.toList ≠ [] := List.ne_nil_of_mem hmem
        show ¬(k.toList.map Char.toLower).length = 0
        rw [List.length_map]
        exact fun h => hnn (List.eq_nil_of_length_eq_zero h)
      unfold countSubstr
      rw [if_neg hne]
      show countSubstrPos [] (pyLower k).toList = 0
      simp [countSubstrPos]
    · rw [if_neg hsp]
      simp
  rw [hcount]
  simp only [KeywordMetric.mk.injEq]
  refine ⟨trivial, by simp, ?_, ?_, ?_, ?_, ?_⟩
  · simp [pyTruthyStr]
  · rfl
  · simp [pyTruthyStr]
  · simp [pyTruthyStr]
  · simp only [List.length_nil, lt_self_iff_false, if_false]
    rw [decide_eq_false_iff_not]
    intro h
    have := h.1
    norm_num at this

/-- The structure metrics of the empty text: no title, no headings, one
paragraph block, all checks false. -/
theorem structure_metrics_of_empty :
    structure_metrics_of "" =
      { has_title := false
        title_length := 0
        h2_count := 0
        h3_count := 0
        paragraph_count := 1
        avg_paragraph_length := 0
        has_meta_description := false
        has_image_alt := false
        has_internal_links := false
        has_external_links := false } := by
  unfold structure_metrics_of
  dsimp only
  simp only [StructureMetrics.mk.injEq]
  refine ⟨rfl, rfl, rfl, rfl, rfl, ?_, rfl, rfl, rfl, rfl⟩
  rw [show paraSplit "" = [""] from rfl]
  rw [show (findWords (pyLower "")).length = 0 from rfl]
  norm_num

/-- On empty text the aggregate keyword score is 0 for every keyword list
(every entry scores zero points). -/
theorem keyword_score_empty (wT : String → List String) (sw : List String)
    (kws : List String) (hw : wT "" = []) :
    (analyze_keywords wT sw "" kws).keyword_score = 0 := by
  unfold analyze_keywords
  dsimp only
  have hzero :
      ((pyDictKeys kws).map (fun k => (k, keyword_metric wT sw "" k))).map
          (fun e => kwPoints e.2) = List.replicate (pyDictKeys kws).length 0 := by
    rw [List.map_map]
    rw [show ((fun e => kwPoints e.2) ∘ fun k => (k, keyword_metric wT sw "" k)) =
        (fun k : String => kwPoints (keyword_metric wT sw "" k)) from rfl]
    rw [List.eq_replicate_iff]
    refine ⟨by rw [List.length_map], ?_⟩
    intro b hb
    rcases List.mem_map.mp hb with ⟨x, _, hx⟩
    rw [keyword_metric_empty wT sw x hw] at hx
    exact hx ▸ rfl
  rw [hzero]
  rw [List.sum_replicate]
  simp

/-- On empty text the readability score is the neutral value 200/3 (the
zeroed grade formulas map to 100 each, the zeroed Flesch ease to 0). -/
theorem readability_score_empty (wT sT : String → List String)
    (hw : wT "" = []) (hs : sT "" = []) :
    (analyze_readability wT sT "").readability_score = 200 / 3 := by
  unfold analyze_readability readability_words
  dsimp only
  rw [hw, hs]
  rw [if_neg (by simp : ¬(0 < (List.filter pyIsAlnum []).length ∧
      0 < ([] : List String).length))]
  show calculate_readability_score 0 0 0 = 200 / 3
  unfold calculate_readability_score
  rw [show max (0 : ℚ) 0 = 0 from max_self 0]
  rw [show min (0 : ℚ) 100 = 0 from min_eq_left (by norm_num)]
  norm_num

/-- C8: analyzing the empty text with any keyword list never fails: the
analyzer is a total function whose division guards all take their zero
branches; the reported word count and sentence count are 0, every keyword
metric carries count 0 and density 0, and the overall score is computed
(0 from keywords and structure, 200/3 from the zeroed readability
formulas, times the content type's readability weight). -/
theorem c8_empty_text_analysis (wT sT : String → List String) (sw kws : List String)
    (ct : String) (hw : wT "" = []) (hs : sT "" = []) :
    (analyze wT sT sw "" kws ct).word_count = 0 ∧
      (analyze wT sT sw "" kws ct).sentence_count = 0 ∧
      (∀ k m, (k, m) ∈ (analyze wT sT sw "" kws ct).keyword_metrics.keywords →
        m.count = 0 ∧ m.density = 0) ∧
      (analyze wT sT sw "" kws ct).overall_score =
        200 / 3 * (weightsFor ct).readability := by
  have hpl : pyLower "" = "" := rfl
  refine ⟨rfl, ?_, ?_, ?_⟩
  · show (sT "").length = 0
    rw [hs]
    rfl
  · intro k m hm
    have hm' : (k, m) ∈ (pyDictKeys kws).map
        (fun x => (x, keyword_metric wT sw (pyLower "") x)) := hm
    rcases List.mem_map.mp hm' with ⟨x, _, hpair⟩
    have hx : x = k ∧ keyword_metric wT sw (pyLower "") x = m := by
      simpa using hpair
    rcases hx with ⟨rfl, hmx⟩
    rw [hpl] at hmx
    rw [keyword_metric_empty wT sw x hw] at hmx
    rw [← hmx]
    exact ⟨rfl, rfl⟩
  · show calculate_seo_score (analyze_keywords wT sw (pyLower "") kws)
        (analyze_readability wT sT "") (structure_metrics_of "") ct =
      200 / 3 * (weightsFor ct).readability
    unfold calculate_seo_score
    dsimp only
    rw [hpl]
    rw [keyword_score_empty wT sw kws hw]
    rw [readability_score_empty wT sT hw hs]
    rw [structure_metrics_of_empty]
    rw [show structureScoreRaw
        { has_title := false
          title_length := 0
          h2_count := 0
          h3_count := 0
          paragraph_count := 1
          avg_paragraph_length := 0
          has_meta_description := false
          has_image_alt := false
          has_internal_links := false
          has_external_links := false } = 0 from rfl]
    rw [show min 0 100 = 0 from rfl]
    push_cast
    ring

/-- C8 instantiated with the concrete tokenizers, keywords `["x"]` and
content type blog_post. -/
theorem c8_empty_text_analysis_witness :
    simpleWordTok "" = [] ∧ simpleSentTok "" = [] ∧
      (analyze simpleWordTok simpleSentTok [] "" ["x"] "blog_post").word_count = 0 ∧
      (analyze simpleWordTok simpleSentTok [] "" ["x"] "blog_post").overall_score =
        200 / 3 * (weightsFor "blog_post").readability :=
  ⟨rfl, rfl,
    (c8_empty_text_analysis simpleWordTok simpleSentTok [] ["x"] "blog_post" rfl rfl).1,
    (c8_empty_text_analysis simpleWordTok simpleSentTok [] ["x"] "blog_post" rfl
        rfl).2.2.2⟩

/-- The recommendation stage's `structure_metrics.get("word_count", 0)`
always yields the default 0: the structure metrics dict has no
`word_count` key. -/
theorem getNatD_word_count (sm : StructureMetrics) : sm.getNatD "word_count" 0 = 0 := rfl

/-- C9 (code behavior at issue): for blog_post content the
increase-content-length advice is emitted for every text whatsoever -
including texts of 1000+ words - and always quotes 0 words, because the
recommendation stage reads the `word_count` key from the structure
metrics dict, which never contains it; likewise for landing_page and its
500-word threshold. -/
theorem c9_length_advice_always_emitted (wT sT : String → List String)
    (sw : List String) (content : String) (kws : List String) :
    "Increase content length (currently 0 words, aim for 1000+ words)" ∈
      (analyze wT sT sw content kws "blog_post").recommendations ∧
      "Increase content length (currently 0 words, aim for 500+ words)" ∈
        (analyze wT sT sw content kws "landing_page").recommendations := by
  constructor
  · show _ ∈ generate_recommendations (analyze_keywords wT sw (pyLower content) kws)
        (analyze_readability wT sT content) (structure_metrics_of content)
        "blog_post" kws
    unfold generate_recommendations
    dsimp only
    rw [getNatD_word_count]
    rw [if_pos (⟨rfl, by norm_num⟩ : "blog_post" = "blog_post" ∧ (0 : ℕ) < 1000)]
    refine List.mem_append_right _ ?_
    exact List.mem_singleton.mpr (by decide)
  · show _ ∈ generate_recommendations (analyze_keywords wT sw (pyLower content) kws)
        (analyze_readability wT sT content) (structure_metrics_of content)
        "landing_page" kws
    unfold generate_recommendations
    dsimp only
    rw [getNatD_word_count]
    rw [if_neg (by simp : ¬("landing_page" = "blog_post" ∧ (0 : ℕ) < 1000))]
    rw [if_pos (⟨rfl, by norm_num⟩ : "landing_page" = "landing_page" ∧ (0 : ℕ) < 500)]
    refine List.mem_append_right _ ?_
    exact List.mem_singleton.mpr (by decide)

/-- C3 counterexample: with a flaky model (generation succeeds with "A",
enhancement raises, the later optimization call succeeds with "B") the
enhancement stage does fall back and record enhancement_failed, but the
final content is the optimization rewrite "B", not the generation output
"A"; and when generation "succeeds" with empty output and the model then
raises, the final content is the empty string. -/
theorem c3_counterexample :
    flakyModel 0 = Except.ok "A" ∧ flakyModel 1 = Except.error "model down" ∧
      (stateAfterEnhance (Except.ok []) (fun _ _ => "p") flakyModel req0).status =
        "enhancement_failed" ∧
      (runWorkflow (Except.ok []) (fun _ _ => "p") flakyModel (fun _ => 0) req0).content =
        "B" ∧
      ¬(runWorkflow (Except.ok []) (fun _ _ => "p") flakyModel (fun _ => 0)
            req0).content = "A" ∧
      emptyGenModel 0 = Except.ok "" ∧ emptyGenModel 1 = Except.error "model down" ∧
      (runWorkflow (Except.ok []) (fun _ _ => "p") emptyGenModel (fun _ => 0)
          req0).content = "" := by
  refine ⟨rfl, rfl, by decide, by decide, by decide, rfl, rfl, by decide⟩

/-- C3 (amended): in every run where the model succeeds on the generation
call with non-empty output and raises on the enhancement call and on any
later optimization call, the enhancement stage records
status=enhancement_failed with the error captured and falls back to the
unenhanced content, and the final response content equals the generation
output verbatim (hence is non-empty). -/
theorem c3_enhancement_fallback_preserves_generation
    (searchR : Except String (List ResearchResult))
    (promptOf : ContentRequest → Option (List ResearchResult) → String)
    (model : ℕ → Except String String) (scoreOf : String → ℚ) (req : ContentRequest)
    (g e1 e2 : String) (h0 : model 0 = Except.ok g) (h1 : model 1 = Except.error e1)
    (h2 : model 2 = Except.error e2) (hg : ¬g = "") :
    (stateAfterEnhance searchR promptOf model req).status = "enhancement_failed" ∧
      (stateAfterEnhance searchR promptOf model req).enhanced_content = some g ∧
      (stateAfterEnhance searchR promptOf model req).error = some e1 ∧
      (runWorkflow searchR promptOf model scoreOf req).content = g := by
  have hT : pyTruthy (some g) = true := by
    simp [pyTruthy, pyTruthyStr, hg]
  have hOr : pyOr (some g) (some g) = some g := by
    unfold pyOr
    rw [hT]
    rfl
  refine ⟨?_, ?_, ?_, ?_⟩
  · unfold stateAfterEnhance
    rw [h1]
    rfl
  · unfold stateAfterEnhance stateAfterGenerate
    rw [h1, h0]
    rfl
  · unfold stateAfterEnhance
    rw [h1]
    rfl
  · unfold runWorkflow finalWorkflowState stateAfterAnalyze stateAfterEnhance
      stateAfterGenerate
    rw [h0, h1, h2]
    by_cases h85 : (85 : ℚ) ≤ scoreOf g
    · simp [generateContentNode, enhanceNode, analyzeSeoNode, optimizeSeoNode,
        resolveFinalContent, pyOr, hT, h85]
    · simp [generateContentNode, enhanceNode, analyzeSeoNode, optimizeSeoNode,
        resolveFinalContent, pyOr, hT, h85]

/-- C3 amended claim instantiated with a concrete model that succeeds once
and then stays down. -/
theorem c3_enhancement_fallback_preserves_generation_witness :
    downAfterFirstModel 0 = Except.ok "Generated copy." ∧
      (stateAfterEnhance (Except.ok []) (fun _ _ => "p") downAfterFirstModel
          req0).status = "enhancement_failed" ∧
      (runWorkflow (Except.ok []) (fun _ _ => "p") downAfterFirstModel (fun _ => 0)
          req0).content = "Generated copy." := by
  have h := c3_enhancement_fallback_preserves_generation (Except.ok [])
    (fun _ _ => "p") downAfterFirstModel (fun _ => 0) req0 "Generated copy." "down"
    "down" rfl rfl rfl (by decide)
  exact ⟨rfl, h.1, h.2.2.2⟩

/-- C4: entering `optimize_seo` with a present content and an analysis
score of at least 85, the node's result does not depend on the model
oracle (no third model call is consumed), the content passes through
unchanged, the stage reports seo_optimization_skipped, and the score is
propagated into metadata under `seo_score`. -/
theorem c4_optimize_seo_skips_when_score_high (s : AgentState) (q : ℚ)
    (r1 r2 : Except String String) (hq : s.seo_analysis = some q) (h85 : 85 ≤ q)
    (hc : pyTruthy (pyOr s.enhanced_content s.content) = true) :
    optimizeSeoNode r1 s = optimizeSeoNode r2 s ∧
      (optimizeSeoNode r1 s).seo_optimized_content =
        pyOr s.enhanced_content s.content ∧
      (optimizeSeoNode r1 s).status = "seo_optimization_skipped" ∧
      pyDictGet (optimizeSeoNode r1 s).metadata "seo_score" = some (.vRat q) := by
  have hcond : (!pyTruthy (pyOr s.enhanced_content s.content) ||
      (some q).isNone) = false := by
    rw [hc]
    rfl
  unfold optimizeSeoNode
  dsimp only
  rw [hq, hcond]
  simp [h85, pyDictGet_set]

/-- C4 instantiated at a concrete state carrying score 90 and content "A",
with one succeeding and one failing oracle. -/
theorem c4_optimize_seo_skips_when_score_high_witness :
    highScoreState.seo_analysis = some 90 ∧ (85 : ℚ) ≤ 90 ∧
      pyTruthy (pyOr highScoreState.enhanced_content highScoreState.content) = true ∧
      optimizeSeoNode (Except.ok "Z") highScoreState =
        optimizeSeoNode (Except.error "x") highScoreState ∧
      (optimizeSeoNode (Except.ok "Z") highScoreState).seo_optimized_content =
        pyOr highScoreState.enhanced_content highScoreState.content ∧
      (optimizeSeoNode (Except.ok "Z") highScoreState).status =
        "seo_optimization_skipped" ∧
      pyDictGet (optimizeSeoNode (Except.ok "Z") highScoreState).metadata "seo_score" =
        some (.vRat 90) := by
  have h := c4_optimize_seo_skips_when_score_high highScoreState 90 (Except.ok "Z")
    (Except.error "x") rfl (by decide) (by decide)
  exact ⟨rfl, by decide, by decide, h.1, h.2.1, h.2.2.1, h.2.2.2⟩

/-- C5 (code behavior at issue): when the model raises on every call, the
generation stage records content_generation_failed with content None, yet
the workflow keeps running through the remaining stages and the runner
returns a ContentResponse whose content is the empty string - it does not
stop and report. -/
theorem c5_generation_failure_run_returns_empty :
    (stateAfterGenerate (Except.ok []) (fun _ _ => "p") failModel req0).status =
      "content_generation_failed" ∧
      (stateAfterGenerate (Except.ok []) (fun _ _ => "p") failModel req0).content =
        none ∧
      (finalWorkflowState (Except.ok []) (fun _ _ => "p") failModel (fun _ => 50)
          req0).status = "seo_optimization_skipped" ∧
      (runWorkflow (Except.ok []) (fun _ _ => "p") failModel (fun _ => 50)
          req0).content = "" := by
  refine ⟨rfl, rfl, by decide, by decide⟩
